import Mathlib

/-!
Verification of the PromptForge-Vision image-generation pipeline.

The development shallowly embeds the two source files:
* `src/api.py` — the FastAPI `/generate` endpoint (`generate_image`), its
  request/response models, prompt synthesis, image extraction from the
  non-streaming Gemini response, and the ImgBB upload / data-URI branch;
* `src/app.py` — the Streamlit dashboard, in particular its input guard and
  its streaming response loop.

External capabilities (the Gemini text model, the Gemini image model, the
ImgBB upload endpoint) are modelled as deterministic function parameters
(`ExternalServices`): the embedding computes exactly what the Python code
computes from the request and those (mocked) responses.  Bytes are modelled
as `List Nat` with values below 256.
-/

namespace PromptForge

/-! ### Response shapes of the generation capability (google.genai)

A `Part` carries optional binary payload (`inline_data`, modelling the
`.inline_data.data` bytes; Python's `None` data and empty `b""` are both
falsy under the code's `if part.inline_data and part.inline_data.data`
check, so a present-but-empty payload behaves like an absent one) and
optional text. -/

structure Part where
  inline_data : Option (List Nat)
  text : Option String
deriving DecidableEq

structure Content where
  parts : List Part
deriving DecidableEq

structure Candidate where
  content : Content
deriving DecidableEq

/-- Non-streaming response: `response.candidates`; an absent (`None`)
candidates list and an empty one are both falsy in
`if response.candidates:` and are modelled by `[]`. -/
structure GenResponse where
  candidates : List Candidate
deriving DecidableEq

/-! ### Base64 (Python `base64.b64encode`, standard alphabet with `=` padding) -/

def b64Alphabet : List Char :=
  "ABCDEFGHIJKLMNOPQRSTUVWXYZabcdefghijklmnopqrstuvwxyz0123456789+/".toList

def b64Char (n : Nat) : Char := b64Alphabet.getD n 'A'

/-- Value of a base64 alphabet character; `none` for padding or foreign
characters. -/
def b64Val (c : Char) : Option Nat :=
  let i := b64Alphabet.indexOf c
  if i < 64 then some i else none

def base64EncodeAux : List Nat → List Char
  | [] => []
  | [a] => [b64Char (a / 4), b64Char (a % 4 * 16), '=', '=']
  | [a, b] => [b64Char (a / 4), b64Char (a % 4 * 16 + b / 16), b64Char (b % 16 * 4), '=']
  | a :: b :: c :: rest =>
      b64Char (a / 4) :: b64Char (a % 4 * 16 + b / 16) :: b64Char (b % 16 * 4 + c / 64) ::
        b64Char (c % 64) :: base64EncodeAux rest

/-- `base64.b64encode(bytes).decode("utf-8")` of `src/api.py` line 142. -/
def base64Encode (bytes : List Nat) : String := ⟨base64EncodeAux bytes⟩

/-- Regroup 6-bit values into bytes (inverse of the encoder's splitting).
A trailing group of two values came from one byte, of three from two. -/
def b64NumsToBytes : List Nat → List Nat
  | v0 :: v1 :: v2 :: v3 :: rest =>
      (v0 * 4 + v1 / 16) :: (v1 % 16 * 16 + v2 / 4) :: (v2 % 4 * 64 + v3) :: b64NumsToBytes rest
  | [v0, v1] => [v0 * 4 + v1 / 16]
  | [v0, v1, v2] => [v0 * 4 + v1 / 16, v1 % 16 * 16 + v2 / 4]
  | _ => []

def b64ValsOf : List Char → Option (List Nat)
  | [] => some []
  | c :: cs =>
      match b64Val c, b64ValsOf cs with
      | some v, some vs => some (v :: vs)
      | _, _ => none

/-- A standard base64 decoder (the spec's "base64-decoding the payload"):
strip the `=` padding, map characters to 6-bit values, regroup into bytes. -/
def base64Decode (s : String) : Option (List Nat) :=
  (b64ValsOf (s.toList.takeWhile (fun c => c != '='))).map b64NumsToBytes

/-! ### Request/response model of the `/generate` endpoint (`src/api.py`) -/

/-- `class ImageRequest(BaseModel)` of `src/api.py` lines 44-49, with the
source's defaults. -/
structure ImageRequest where
  title : String
  description : String
  add_text_overlay : Bool := false
  enhance_prompt : Bool := true
  upload_imgbb : Bool := true
deriving DecidableEq

/-- `class ImageResponse(BaseModel)` of `src/api.py` lines 52-53. -/
structure ImageResponse where
  image_url : String
deriving DecidableEq

/-- The parsed JSON of the ImgBB upload response, as the code reads it:
`success` is the truthiness of `.get("success")` (absent/false/0 ↦ `false`);
`error_message` is `.get("error", {}).get("message")` when present;
`data_url` is `["data"]["url"]`, `none` when the key chain is missing
(which in Python raises a `KeyError`). -/
structure ImgbbResponse where
  success : Bool
  error_message : Option String
  data_url : Option String
deriving DecidableEq

/-- The three external capabilities, as deterministic (mocked) functions.
`text_model key contents` and `image_model key prompt` model calls through
`genai.Client(api_key=key)`; `imgbb_upload key image_b64` models the POST
to the ImgBB upload endpoint with form fields `key` and `image`. -/
structure ExternalServices where
  text_model : String → String → String
  image_model : String → String → GenResponse
  imgbb_upload : String → String → ImgbbResponse

/-- Errors surfaced by the endpoint: FastAPI's 422 validation rejection for
missing required parameters, `HTTPException(status, detail)` raises, and a
Python `KeyError` (only reachable from `imgbb_data["data"]["url"]` when the
key chain is missing; the outer handler would stringify it into a 500). -/
inductive ApiError where
  | validation (missing : List String)
  | http (status : Nat) (detail : String)
  | keyError (key : String)
deriving DecidableEq

/-- Python's `str.strip()`: drop leading and trailing whitespace.  (Lean's
`String.trim` is not kernel-reducible, so the embedding uses this
executable equivalent; the exact whitespace set is immaterial to the
claims.) -/
def pyStrip (s : String) : String :=
  ⟨((s.toList.dropWhile Char.isWhitespace).reverse.dropWhile Char.isWhitespace).reverse⟩

/-! ### Prompt synthesis (`src/api.py` lines 74-101) -/

def typography_instruction (req : ImageRequest) : String :=
  if req.add_text_overlay then
    "\n\nCRITICAL: Explicitly instruct the image generator to integrate beautiful, professional typography directly into the visual composition (like a high-end Canva banner, magazine cover, or cinematic poster). The text must perfectly spell out '" ++ req.title ++ "' in a stunning font that matches the scene's aesthetic. Describe exactly where the text is placed and what it looks like."
  else ""

def enhancement_instructions (req : ImageRequest) : String :=
  "\n        You are an expert AI Image Prompt Engineer. \n        Take the user's main subject and details and write a single highly detailed, \n        professional image generation prompt. Add deep descriptions of the lighting, \n        camera angle, mood, atmosphere, and artistic style. " ++
    typography_instruction req ++
    "\n        \n        Make it sound like a cinematic masterpiece or brilliant conceptual artwork.\n        Do NOT include introductory or concluding text, JUST output the enhanced image prompt.\n        \n        Main Subject: '" ++
    req.title ++ "'\n        Details & Setting: '" ++ req.description ++ "'\n        "

/-- Step 1 of `generate_image`: either the trimmed text-model output, or the
deterministic concatenation (lines 91-101). -/
def enhanced_prompt (req : ImageRequest) (gemini_key : String) (ext : ExternalServices) : String :=
  if req.enhance_prompt then
    pyStrip (ext.text_model gemini_key (enhancement_instructions req))
  else
    req.title ++ ", " ++ req.description ++
      (if req.add_text_overlay then " Text overlay: '" ++ req.title ++ "'" else "")

/-! ### Image extraction (`src/api.py` lines 130-139) -/

/-- The `for part in ...: if part.inline_data and part.inline_data.data:
image_data = ...; break` scan: first part with a non-empty binary payload. -/
def firstImagePart : List Part → Option (List Nat)
  | [] => none
  | p :: ps =>
      match p.inline_data with
      | some d => if d ≠ [] then some d else firstImagePart ps
      | none => firstImagePart ps

/-- Lines 131-136: `image_data` after the extraction loop.  Only
`candidates[0]` is inspected; an absent/empty candidates list leaves
`image_data = None`. -/
def extract_image_data (r : GenResponse) : Option (List Nat) :=
  match r.candidates with
  | [] => none
  | c :: _ => firstImagePart c.content.parts

/-- The RawImage bytes of one run: extraction applied to the image model's
response to the enhanced prompt. -/
def raw_image (req : ImageRequest) (gemini_key : String) (ext : ExternalServices) :
    Option (List Nat) :=
  extract_image_data (ext.image_model gemini_key (enhanced_prompt req gemini_key ext))

/-! ### The pipeline body (`src/api.py` lines 69-167, the `try` block) -/

def generate_image (req : ImageRequest) (gemini_key imgbb_key : String)
    (ext : ExternalServices) : Except ApiError ImageResponse :=
  match raw_image req gemini_key ext with
  | none => .error (.http 500 "The model did not return image data.")
  | some image_data =>
      let image_b64 := base64Encode image_data
      if req.upload_imgbb then
        let imgbb_data := ext.imgbb_upload imgbb_key image_b64
        if imgbb_data.success then
          match imgbb_data.data_url with
          | some url => .ok ⟨url⟩
          | none => .error (.keyError "url")
        else
          .error (.http 500
            ("ImgBB Upload Failed: " ++ imgbb_data.error_message.getD "Unknown Upload Error"))
      else
        .ok ⟨"data:image/jpeg;base64," ++ image_b64⟩

/-! ### Framework-level parameter validation (`src/api.py` lines 59-64)

Pydantic requires `title` and `description` in the body (the other three
fields have defaults) and FastAPI requires both `Header(...)` credentials;
a missing required parameter is rejected with a 422 before the handler —
and hence before any external call — runs. -/

structure RawRequest where
  title : Option String
  description : Option String
  add_text_overlay : Option Bool
  enhance_prompt : Option Bool
  upload_imgbb : Option Bool
deriving DecidableEq

structure RequestHeaders where
  x_gemini_api_key : Option String
  x_imgbb_api_key : Option String
deriving DecidableEq

def missing_params (raw : RawRequest) (h : RequestHeaders) : List String :=
  (if raw.title.isNone then ["title"] else []) ++
    (if raw.description.isNone then ["description"] else []) ++
    (if h.x_gemini_api_key.isNone then ["x-gemini-api-key"] else []) ++
    (if h.x_imgbb_api_key.isNone then ["x-imgbb-api-key"] else [])

/-- The POST `/generate` endpoint: framework validation, then the handler. -/
def post_generate (raw : RawRequest) (h : RequestHeaders) (ext : ExternalServices) :
    Except ApiError ImageResponse :=
  match raw.title, raw.description, h.x_gemini_api_key, h.x_imgbb_api_key with
  | some t, some d, some gk, some ik =>
      generate_image
        ⟨t, d, raw.add_text_overlay.getD false, raw.enhance_prompt.getD true,
          raw.upload_imgbb.getD true⟩ gk ik ext
  | _, _, _, _ => .error (.validation (missing_params raw h))

/-! ### The Streamlit dashboard (`src/app.py`) -/

/-- The generate-button guard (`src/app.py` lines 23-25): the run proceeds
only when both `image_title.strip()` and `image_description.strip()` are
truthy (non-empty). -/
def app_accepts (image_title image_description : String) : Bool :=
  !(pyStrip image_title == "") && !(pyStrip image_description == "")

/-- Observable UI events of the streaming loop: an image rendered
(`st.image` + download button), a model text message (`st.info`), and the
final "didn't return an image" informational notice. -/
inductive StEvent where
  | image (data : List Nat)
  | modelMessage (t : String)
  | noImageNotice
deriving DecidableEq

def StEvent.isImage : StEvent → Bool
  | .image _ => true
  | _ => false

/-- One streamed chunk; `chunk.parts` may be `None` (skipped by
`if chunk.parts is None: continue`). -/
structure Chunk where
  parts : Option (List Part)
deriving DecidableEq

/-- Events the loop body emits for one `part` (`src/app.py` lines 91-108):
a non-empty binary payload is rendered (with no `break`); otherwise, under
`elif part.text:` and `if part.text.strip():`, a non-blank text part is
shown as a model message. -/
def part_events (p : Part) : List StEvent :=
  match p.inline_data with
  | some d => if d ≠ [] then [.image d] else text_events p
  | none => text_events p
where
  text_events (p : Part) : List StEvent :=
    match p.text with
    | some t => if t ≠ "" then (if pyStrip t ≠ "" then [.modelMessage t] else []) else []
    | none => []

/-- All parts of the stream in order (chunks with `parts is None` skipped). -/
def stream_parts : List Chunk → List Part
  | [] => []
  | c :: cs => c.parts.getD [] ++ stream_parts cs

def stream_events : List Part → List StEvent
  | [] => []
  | p :: ps => part_events p ++ stream_events ps

/-- The non-empty binary payloads of a part list, in order. -/
def binary_payloads : List Part → List (List Nat)
  | [] => []
  | p :: ps =>
      (match p.inline_data with
        | some d => if d ≠ [] then [d] else []
        | none => []) ++ binary_payloads ps

/-- The whole `for chunk in response_stream` loop of `src/app.py` lines
86-111, including the trailing `if not image_found:` notice.  `image_found`
is `true` exactly when some image event was emitted in the loop. -/
def response_stream_loop (chunks : List Chunk) : List StEvent :=
  let evs := stream_events (stream_parts chunks)
  evs ++ (if evs.any StEvent.isImage then [] else [StEvent.noImageNotice])

/-- The binary payload of an image event, `none` for the other events. -/
def StEvent.imageData : StEvent → Option (List Nat)
  | .image d => some d
  | _ => none

/-- The image payloads the streaming UI actually renders, in order. -/
def stream_images (chunks : List Chunk) : List (List Nat) :=
  (response_stream_loop chunks).filterMap StEvent.imageData

/-- Claim C1's extraction rule, stated for the streaming variant in the
spec's words: the routine returns (renders) exactly the payload of the
first part carrying binary image data, ignoring the rest. -/
def c1_claimed_stream_extraction (chunks : List Chunk) : Prop :=
  stream_images chunks = (firstImagePart (stream_parts chunks)).toList

/-! ### Overlay stage (spec §4.3) -/

/-- Modelled from the spec: the banner-overlay stage of §4.3 has no code
under `src/` (neither `src/api.py` nor `src/app.py` contains it; only the
spec describes it).  `decode`, `render` and `encode` stand for the
raster-library capabilities: decoding the image bytes (may fail on corrupt
input), compositing the banner with the title/description text (may fail
while rendering), and re-encoding to a lossless raster format.  Per the
spec's failure policy, any failing step degrades to returning the original
bytes unchanged. -/
def overlay_stage {Img : Type} (decode : List Nat → Option Img)
    (render : Img → String → String → Option Img) (encode : Img → List Nat)
    (img : List Nat) (title description : String) : List Nat :=
  match decode img with
  | none => img
  | some pic =>
      match render pic title description with
      | none => img
      | some pic2 => encode pic2

/-! ### Concrete mocked services, used by witnesses and counterexamples -/

/-- Services whose image model returns a response with no candidates. -/
def extNoImage : ExternalServices :=
  ⟨fun _ _ => "enhanced", fun _ _ => ⟨[]⟩, fun _ _ => ⟨false, none, none⟩⟩

/-- Services whose image model returns one candidate with one binary part
`[1]` and whose upload host succeeds with a fixed URL. -/
def extOneImage : ExternalServices :=
  ⟨fun _ _ => "enhanced", fun _ _ => ⟨[⟨⟨[⟨some [1], none⟩]⟩⟩]⟩,
    fun _ _ => ⟨true, none, some "https://i.ibb.co/demo.png"⟩⟩

/-- Services whose image model returns a text-only first candidate and a
second candidate that does carry binary data. -/
def extTwoCandidates : ExternalServices :=
  ⟨fun _ _ => "enhanced",
    fun _ _ => ⟨[⟨⟨[⟨none, some "no image"⟩]⟩⟩, ⟨⟨[⟨some [9], none⟩]⟩⟩]⟩,
    fun _ _ => ⟨true, none, some "https://i.ibb.co/demo.png"⟩⟩

/-- Services whose upload host reports failure with an upstream message. -/
def extUploadFail : ExternalServices :=
  ⟨fun _ _ => "enhanced", fun _ _ => ⟨[⟨⟨[⟨some [1], none⟩]⟩⟩]⟩,
    fun _ _ => ⟨false, some "quota exceeded", none⟩⟩

/-- A raw request whose title and description are present but empty. -/
def emptyFieldsRequest : RawRequest :=
  ⟨some "", some "", some false, some false, some false⟩

/-- Both credential headers present. -/
def allHeaders : RequestHeaders := ⟨some "g", some "i"⟩

/-! ### Helper lemmas: base64 roundtrip -/

theorem list3_induction {α : Type} {P : List α → Prop} (h0 : P [])
    (h1 : ∀ a, P [a]) (h2 : ∀ a b, P [a, b])
    (h3 : ∀ a b c rest, P rest → P (a :: b :: c :: rest)) : ∀ l, P l
  | [] => h0
  | [a] => h1 a
  | [a, b] => h2 a b
  | a :: b :: c :: rest => h3 a b c rest (list3_induction h0 h1 h2 h3 rest)

theorem b64Char_spec (v : Nat) (h : v < 64) :
    b64Val (b64Char v) = some v ∧ (b64Char v != '=') = true := by
  have key : ∀ x : Fin 64,
      b64Val (b64Char x.val) = some x.val ∧ (b64Char x.val != '=') = true := by decide
  exact key ⟨v, h⟩

theorem b64_roundtrip_aux : ∀ bs : List Nat, (∀ x ∈ bs, x < 256) →
    (b64ValsOf ((base64EncodeAux bs).takeWhile (fun c => c != '='))).map b64NumsToBytes
      = some bs := by
  intro bs
  induction bs using list3_induction with
  | h0 => intro _; rfl
  | h1 a =>
      intro h
      have ha : a < 256 := h a (by simp)
      have s0 := b64Char_spec (a / 4) (by omega)
      have s1 := b64Char_spec (a % 4 * 16) (by omega)
      simp [base64EncodeAux, List.takeWhile_cons, s0.1, s0.2, s1.1, s1.2, b64ValsOf,
        b64NumsToBytes]
      omega
  | h2 a b =>
      intro h
      have ha : a < 256 := h a (by simp)
      have hb : b < 256 := h b (by simp)
      have s0 := b64Char_spec (a / 4) (by omega)
      have s1 := b64Char_spec (a % 4 * 16 + b / 16) (by omega)
      have s2 := b64Char_spec (b % 16 * 4) (by omega)
      simp [base64EncodeAux, List.takeWhile_cons, s0.1, s0.2, s1.1, s1.2, s2.1, s2.2,
        b64ValsOf, b64NumsToBytes]
      constructor
      · omega
      · omega
  | h3 a b c rest ih =>
      intro h
      have ha : a < 256 := h a (by simp)
      have hb : b < 256 := h b (by simp)
      have hc : c < 256 := h c (by simp)
      have hrest : ∀ x ∈ rest, x < 256 := fun x hx => h x (by simp [hx])
      have s0 := b64Char_spec (a / 4) (by omega)
      have s1 := b64Char_spec (a % 4 * 16 + b / 16) (by omega)
      have s2 := b64Char_spec (b % 16 * 4 + c / 64) (by omega)
      have s3 := b64Char_spec (c % 64) (by omega)
      have ihh := ih hrest
      obtain ⟨vs, hvs1, hvs2⟩ := Option.map_eq_some'.mp ihh
      simp [base64EncodeAux, List.takeWhile_cons, s0.1, s0.2, s1.1, s1.2, s2.1, s2.2,
        s3.1, s3.2, b64ValsOf, hvs1, b64NumsToBytes, hvs2]
      refine ⟨by omega, by omega, by omega⟩

/-- Decoding the encoding of a byte sequence recovers it exactly. -/
theorem b64_roundtrip (bs : List Nat) (h : ∀ x ∈ bs, x < 256) :
    base64Decode (base64Encode bs) = some bs := b64_roundtrip_aux bs h




/-! ### Helper lemmas: streaming loop -/

theorem text_events_filterMap (p : Part) :
    (part_events.text_events p).filterMap StEvent.imageData = [] := by
  unfold part_events.text_events
  repeat' split
  all_goals rfl

theorem text_events_any (p : Part) :
    (part_events.text_events p).any StEvent.isImage = false := by
  unfold part_events.text_events
  repeat' split
  all_goals rfl

theorem isEmpty_append {α : Type} (l1 l2 : List α) :
    (l1 ++ l2).isEmpty = (l1.isEmpty && l2.isEmpty) := by
  cases l1 <;> rfl

theorem part_events_images (p : Part) :
    (part_events p).filterMap StEvent.imageData =
      (match p.inline_data with
        | some d => if d ≠ [] then [d] else []
        | none => []) := by
  cases hi : p.inline_data with
  | none => simp [part_events, hi, text_events_filterMap]
  | some d =>
      by_cases hd : d = []
      · simp [part_events, hi, hd, text_events_filterMap]
      · simp [part_events, hi, hd, StEvent.imageData]

theorem stream_events_images (ps : List Part) :
    (stream_events ps).filterMap StEvent.imageData = binary_payloads ps := by
  induction ps with
  | nil => rfl
  | cons p ps ih =>
      simp only [stream_events, binary_payloads, List.filterMap_append, part_events_images, ih]

theorem stream_events_any_isImage (ps : List Part) :
    (stream_events ps).any StEvent.isImage = !(binary_payloads ps).isEmpty := by
  induction ps with
  | nil => rfl
  | cons p ps ih =>
      simp only [stream_events, binary_payloads, List.any_append, isEmpty_append, ih,
        Bool.not_and]
      congr 1
      cases hi : p.inline_data with
      | none => simp [part_events, hi, text_events_any]
      | some d =>
          by_cases hd : d = []
          · simp [part_events, hi, hd, text_events_any]
          · simp [part_events, hi, hd, StEvent.isImage]

theorem stream_images_eq (chunks : List Chunk) :
    stream_images chunks = binary_payloads (stream_parts chunks) := by
  simp only [stream_images, response_stream_loop, List.filterMap_append, stream_events_images]
  split <;> simp [StEvent.imageData]

theorem response_stream_loop_eq (chunks : List Chunk) :
    response_stream_loop chunks =
      stream_events (stream_parts chunks) ++
        (if binary_payloads (stream_parts chunks) = [] then [StEvent.noImageNotice] else []) := by
  simp only [response_stream_loop, stream_events_any_isImage]
  congr 1
  rcases h : binary_payloads (stream_parts chunks) with _ | ⟨x, xs⟩ <;> simp

theorem firstImagePart_eq_head (ps : List Part) :
    firstImagePart ps = (binary_payloads ps).head? := by
  induction ps with
  | nil => rfl
  | cons p ps ih =>
      cases hi : p.inline_data with
      | none => simp [firstImagePart, binary_payloads, hi, ih]
      | some d =>
          by_cases hd : d = []
          · simp [firstImagePart, binary_payloads, hi, hd, ih]
          · simp [firstImagePart, binary_payloads, hi, hd]


/-! ## Claim theorems -/


/-- Claim C1 counterexample: the claim asserts the streaming variant obeys
the same first-binary-part extraction rule as the non-streaming one.  On a
stream with two binary parts the dashboard loop renders both payloads, not
only the first, so the claimed rule fails at this input. -/
theorem C1_streaming_counterexample :
    ¬ c1_claimed_stream_extraction [⟨some [⟨some [1], none⟩, ⟨some [2], none⟩]⟩] := by
  unfold c1_claimed_stream_extraction
  decide

/-- Claim C1 (amended): the non-streaming endpoint scans the first
candidate's parts in order and extracts the first non-empty binary payload,
failing with the "The model did not return image data." HTTP 500 error when
there is none; the streaming dashboard, however, renders every binary
payload it encounters (in stream order), and when the stream carries no
binary payload it appends an informational no-image notice instead of
raising an error. -/
theorem C1_extraction_rule :
    (∀ (r : GenResponse) (c : Candidate) (rest : List Candidate),
        r.candidates = c :: rest →
        extract_image_data r = (binary_payloads c.content.parts).head?) ∧
    (∀ (req : ImageRequest) (gemini_key imgbb_key : String) (ext : ExternalServices),
        raw_image req gemini_key ext = none →
        generate_image req gemini_key imgbb_key ext =
          .error (.http 500 "The model did not return image data.")) ∧
    (∀ chunks : List Chunk,
        stream_images chunks = binary_payloads (stream_parts chunks) ∧
        response_stream_loop chunks =
          stream_events (stream_parts chunks) ++
            (if binary_payloads (stream_parts chunks) = []
              then [StEvent.noImageNotice] else [])) := by
  refine ⟨?_, ?_, ?_⟩
  · intro r c rest h
    simp [extract_image_data, h, firstImagePart_eq_head]
  · intro req gemini_key imgbb_key ext h
    unfold generate_image
    rw [h]
  · intro chunks
    exact ⟨stream_images_eq chunks, response_stream_loop_eq chunks⟩

/-- Claim C1 witness: the amended rule evaluated on concrete inputs — a
response whose third part is the first binary one, a run whose model
returns no candidates, and a stream with one text and one binary part. -/
theorem C1_extraction_rule_witness :
    extract_image_data
        ⟨[⟨⟨[⟨none, some "hello"⟩, ⟨some [], none⟩, ⟨some [7, 8], none⟩, ⟨some [9], none⟩]⟩⟩]⟩
      = some [7, 8] ∧
    generate_image ⟨"t", "d", false, false, false⟩ "g" "i" extNoImage =
      .error (.http 500 "The model did not return image data.") ∧
    stream_images [⟨some [⟨none, some "m"⟩, ⟨some [7], none⟩]⟩] = [[7]] := by
  refine ⟨?_, ?_, ?_⟩
  · have h := C1_extraction_rule.1
      ⟨[⟨⟨[⟨none, some "hello"⟩, ⟨some [], none⟩, ⟨some [7, 8], none⟩, ⟨some [9], none⟩]⟩⟩]⟩
      ⟨⟨[⟨none, some "hello"⟩, ⟨some [], none⟩, ⟨some [7, 8], none⟩, ⟨some [9], none⟩]⟩⟩ [] rfl
    rw [h]; decide
  · exact C1_extraction_rule.2.1 ⟨"t", "d", false, false, false⟩ "g" "i" extNoImage rfl
  · have h := (C1_extraction_rule.2.2 [⟨some [⟨none, some "m"⟩, ⟨some [7], none⟩]⟩]).1
    rw [h]; decide

/-- Claim C10: the non-streaming endpoint inspects only the first
candidate: with an absent/empty candidates list, or a first candidate none
of whose parts carries a non-empty binary payload, the run fails with
exactly the HTTP 500 "The model did not return image data." error — even
when a later candidate does carry image data (the `rest` of the candidate
list is unconstrained) — and no other failure (in particular no crash
distinct from this error) results from an empty candidates list. -/
theorem C10_first_candidate_only (req : ImageRequest) (gemini_key imgbb_key : String)
    (ext : ExternalServices) :
    ((ext.image_model gemini_key (enhanced_prompt req gemini_key ext)).candidates = [] →
        generate_image req gemini_key imgbb_key ext =
          .error (.http 500 "The model did not return image data.")) ∧
    (∀ (c : Candidate) (rest : List Candidate),
        (ext.image_model gemini_key (enhanced_prompt req gemini_key ext)).candidates
            = c :: rest →
        firstImagePart c.content.parts = none →
        generate_image req gemini_key imgbb_key ext =
          .error (.http 500 "The model did not return image data.")) := by
  constructor
  · intro h
    unfold generate_image raw_image extract_image_data
    rw [h]
  · intro c rest h hc
    unfold generate_image raw_image extract_image_data
    rw [h]
    simp [hc]

/-- Claim C10 witness: a response whose first candidate is text-only and
whose second candidate carries binary data still yields the no-image
error. -/
theorem C10_first_candidate_only_witness :
    generate_image ⟨"t", "d", false, false, true⟩ "g" "i" extTwoCandidates =
      .error (.http 500 "The model did not return image data.") := by
  exact (C10_first_candidate_only ⟨"t", "d", false, false, true⟩ "g" "i"
      extTwoCandidates).2
    ⟨⟨[⟨none, some "no image"⟩]⟩⟩ [⟨⟨[⟨some [9], none⟩]⟩⟩] rfl (by decide)



/-- Claim C2 (spec-modelled, the overlay stage has no code under `src/`):
the overlay stage never aborts — it is a total function — and either
produces the re-encoded composited image, or, when decoding or rendering
fails, silently returns the original bytes unchanged, so the failure is
invisible to the caller except for the absence of the banner. -/
theorem C2_overlay_never_aborts {Img : Type} (decode : List Nat → Option Img)
    (render : Img → String → String → Option Img) (encode : Img → List Nat)
    (img : List Nat) (title description : String) :
    (decode img = none →
        overlay_stage decode render encode img title description = img) ∧
    (∀ pic, decode img = some pic → render pic title description = none →
        overlay_stage decode render encode img title description = img) ∧
    (∀ pic pic2, decode img = some pic → render pic title description = some pic2 →
        overlay_stage decode render encode img title description = encode pic2) := by
  refine ⟨?_, ?_, ?_⟩
  · intro h; unfold overlay_stage; rw [h]
  · intro pic h1 h2; unfold overlay_stage; rw [h1]; simp [h2]
  · intro pic pic2 h1 h2; unfold overlay_stage; rw [h1]; simp [h2]

/-- Claim C2 witness: a decoder that fails on the corrupt bytes `[3]`
leaves them unchanged; a pipeline whose steps all succeed delivers the
re-encoded image. -/
theorem C2_overlay_never_aborts_witness :
    overlay_stage (fun _ => (none : Option Unit)) (fun _ _ _ => none) (fun _ => [])
        [3] "t" "d" = [3] ∧
    overlay_stage (fun _ => some ()) (fun _ _ _ => some ()) (fun _ => [9])
        [3] "t" "d" = [9] :=
  ⟨(C2_overlay_never_aborts (fun _ => (none : Option Unit)) (fun _ _ _ => none)
      (fun _ => []) [3] "t" "d").1 rfl,
    (C2_overlay_never_aborts (fun _ => some ()) (fun _ _ _ => some ()) (fun _ => [9])
      [3] "t" "d").2.2 () () rfl rfl⟩

/-- Claim C3: with `upload_imgbb = false`, a successful run returns exactly
the string `"data:image/jpeg;base64,"` followed by the base64 encoding of
the RawImage bytes, and base64-decoding that payload reconstructs the
RawImage bytes exactly. -/
theorem C3_data_uri_roundtrip (req : ImageRequest) (gemini_key imgbb_key : String)
    (ext : ExternalServices) (bytes : List Nat) (hflag : req.upload_imgbb = false)
    (himg : raw_image req gemini_key ext = some bytes)
    (hbytes : ∀ x ∈ bytes, x < 256) :
    generate_image req gemini_key imgbb_key ext =
      .ok ⟨"data:image/jpeg;base64," ++ base64Encode bytes⟩ ∧
    base64Decode (base64Encode bytes) = some bytes := by
  constructor
  · unfold generate_image
    rw [himg]
    simp [hflag]
  · exact b64_roundtrip bytes hbytes

/-- Claim C3 witness: for the one-byte image `[1]` the run returns the data
URI with payload `"AQ=="` and decoding recovers `[1]`. -/
theorem C3_data_uri_roundtrip_witness :
    generate_image ⟨"t", "d", false, false, false⟩ "g" "i" extOneImage =
      .ok ⟨"data:image/jpeg;base64," ++ base64Encode [1]⟩ ∧
    base64Decode (base64Encode [1]) = some [1] :=
  C3_data_uri_roundtrip ⟨"t", "d", false, false, false⟩ "g" "i" extOneImage [1]
    rfl rfl (by decide)

/-- Claim C4: with `enhance_prompt = false` the enhanced prompt is the
deterministic concatenation `"{title}, {description}"`, with the suffix
`" Text overlay: '{title}'"` appended exactly when `add_text_overlay` is
set, and it is independent of the external services (no external call
contributes to it). -/
theorem C4_no_enhance_concatenation (req : ImageRequest) (gemini_key : String)
    (h : req.enhance_prompt = false) :
    (∀ ext : ExternalServices,
        enhanced_prompt req gemini_key ext =
          req.title ++ ", " ++ req.description ++
            (if req.add_text_overlay then " Text overlay: '" ++ req.title ++ "'" else "")) ∧
    (∀ ext ext2 : ExternalServices,
        enhanced_prompt req gemini_key ext = enhanced_prompt req gemini_key ext2) := by
  constructor
  · intro ext
    simp [enhanced_prompt, h]
  · intro ext ext2
    simp [enhanced_prompt, h]

/-- Claim C4 witness: both conjuncts evaluated at a concrete request with
the overlay flag set, against two different mocked service records. -/
theorem C4_no_enhance_concatenation_witness :
    enhanced_prompt ⟨"A cat", "on a mat", true, false, true⟩ "g" extOneImage =
      "A cat, on a mat Text overlay: 'A cat'" ∧
    enhanced_prompt ⟨"A cat", "on a mat", true, false, true⟩ "g" extOneImage =
      enhanced_prompt ⟨"A cat", "on a mat", true, false, true⟩ "g" extUploadFail := by
  have h := C4_no_enhance_concatenation ⟨"A cat", "on a mat", true, false, true⟩ "g" rfl
  exact ⟨(h.1 extOneImage).trans (by decide), h.2 extOneImage extUploadFail⟩

/-- Claim C9: the pipeline is deterministic — with identical requests,
identical credentials and identical (mocked, deterministic) external
services, two runs produce the same enhanced prompt, byte-identical
RawImage, and identical final response; the embedding is a pure function
of these inputs, as the source introduces no randomness of its own. -/
theorem C9_deterministic (req : ImageRequest) (gemini_key imgbb_key : String)
    (ext ext2 : ExternalServices) (h : ext = ext2) :
    enhanced_prompt req gemini_key ext = enhanced_prompt req gemini_key ext2 ∧
    raw_image req gemini_key ext = raw_image req gemini_key ext2 ∧
    generate_image req gemini_key imgbb_key ext =
      generate_image req gemini_key imgbb_key ext2 := by
  subst h
  exact ⟨rfl, rfl, rfl⟩

/-- Claim C9 witness: two runs against the same concrete mocked services. -/
theorem C9_deterministic_witness :
    enhanced_prompt ⟨"t", "d", false, true, true⟩ "g" extOneImage =
      enhanced_prompt ⟨"t", "d", false, true, true⟩ "g" extOneImage ∧
    raw_image ⟨"t", "d", false, true, true⟩ "g" extOneImage =
      raw_image ⟨"t", "d", false, true, true⟩ "g" extOneImage ∧
    generate_image ⟨"t", "d", false, true, true⟩ "g" "i" extOneImage =
      generate_image ⟨"t", "d", false, true, true⟩ "g" "i" extOneImage :=
  C9_deterministic ⟨"t", "d", false, true, true⟩ "g" "i" extOneImage extOneImage rfl



/-- Claim C5: a successful run delivers exactly one of the two result
variants, selected by the `upload_imgbb` flag: the upload host's URL when
the flag is true, the inline `data:image/jpeg;base64,` URI of the RawImage
bytes when it is false; the two cases require contradictory flag values,
so never both and never neither. -/
theorem C5_exactly_one_delivery (req : ImageRequest) (gemini_key imgbb_key : String)
    (ext : ExternalServices) (resp : ImageResponse)
    (h : generate_image req gemini_key imgbb_key ext = .ok resp) :
    ∃ bytes, raw_image req gemini_key ext = some bytes ∧
      ((req.upload_imgbb = true ∧
          (ext.imgbb_upload imgbb_key (base64Encode bytes)).success = true ∧
          (ext.imgbb_upload imgbb_key (base64Encode bytes)).data_url
            = some resp.image_url) ∨
        (req.upload_imgbb = false ∧
          resp.image_url = "data:image/jpeg;base64," ++ base64Encode bytes)) ∧
      ¬(req.upload_imgbb = true ∧ req.upload_imgbb = false) := by
  unfold generate_image at h
  cases hri : raw_image req gemini_key ext with
  | none => rw [hri] at h; exact absurd h (by simp)
  | some bytes =>
      rw [hri] at h
      refine ⟨bytes, rfl, ?_, by simp⟩
      by_cases hub : req.upload_imgbb = true
      · simp only [hub, if_true] at h
        cases hsucc : (ext.imgbb_upload imgbb_key (base64Encode bytes)).success with
        | false => rw [hsucc] at h; simp at h
        | true =>
            rw [hsucc] at h
            simp only [if_true] at h
            cases hurl : (ext.imgbb_upload imgbb_key (base64Encode bytes)).data_url with
            | none => rw [hurl] at h; simp at h
            | some url =>
                rw [hurl] at h
                simp only [Except.ok.injEq] at h
                left
                refine ⟨hub, rfl, ?_⟩
                rw [← h]
      · simp only [Bool.not_eq_true] at hub
        simp only [hub, Bool.false_eq_true, if_false] at h
        simp only [Except.ok.injEq] at h
        right
        exact ⟨hub, by rw [← h]⟩

/-- Claim C5 witness: the conclusion instantiated on a successful hosted
run (flag true) against the concrete services `extOneImage`. -/
theorem C5_exactly_one_delivery_witness :
    ∃ bytes, raw_image ⟨"t", "d", false, false, true⟩ "g" extOneImage = some bytes ∧
      ((true = true ∧
          (extOneImage.imgbb_upload "i" (base64Encode bytes)).success = true ∧
          (extOneImage.imgbb_upload "i" (base64Encode bytes)).data_url
            = some (ImageResponse.mk "https://i.ibb.co/demo.png").image_url) ∨
        (true = false ∧
          (ImageResponse.mk "https://i.ibb.co/demo.png").image_url
            = "data:image/jpeg;base64," ++ base64Encode bytes)) ∧
      ¬(true = true ∧ true = false) :=
  C5_exactly_one_delivery ⟨"t", "d", false, false, true⟩ "g" "i" extOneImage
    ⟨"https://i.ibb.co/demo.png"⟩ rfl

/-- Claim C6: with `upload_imgbb = true` and an upload response without a
truthy success flag, the run fails with the upload error
`"ImgBB Upload Failed: <upstream message>"` — so the error text contains
the upstream-reported message — or with the fallback literal
`"Unknown Upload Error"` when no upstream message is present; with a
truthy success flag it returns the hosted URL instead. -/
theorem C6_upload_error (req : ImageRequest) (gemini_key imgbb_key : String)
    (ext : ExternalServices) (bytes : List Nat) (hflag : req.upload_imgbb = true)
    (himg : raw_image req gemini_key ext = some bytes) :
    (∀ msg, (ext.imgbb_upload imgbb_key (base64Encode bytes)).success = false →
        (ext.imgbb_upload imgbb_key (base64Encode bytes)).error_message = some msg →
        generate_image req gemini_key imgbb_key ext =
          .error (.http 500 ("ImgBB Upload Failed: " ++ msg))) ∧
    ((ext.imgbb_upload imgbb_key (base64Encode bytes)).success = false →
        (ext.imgbb_upload imgbb_key (base64Encode bytes)).error_message = none →
        generate_image req gemini_key imgbb_key ext =
          .error (.http 500 "ImgBB Upload Failed: Unknown Upload Error")) ∧
    (∀ url, (ext.imgbb_upload imgbb_key (base64Encode bytes)).success = true →
        (ext.imgbb_upload imgbb_key (base64Encode bytes)).data_url = some url →
        generate_image req gemini_key imgbb_key ext = .ok ⟨url⟩) := by
  refine ⟨?_, ?_, ?_⟩
  · intro msg hsucc hmsg
    unfold generate_image
    rw [himg]
    simp [hflag, hsucc, hmsg]
  · intro hsucc hmsg
    unfold generate_image
    rw [himg]
    simp [hflag, hsucc, hmsg]
  · intro url hsucc hurl
    unfold generate_image
    rw [himg]
    simp [hflag, hsucc, hurl]

/-- Claim C6 witness: for the upload response
`{"success": false, "error": {"message": "quota exceeded"}}` the run fails
with an error whose text contains "quota exceeded". -/
theorem C6_upload_error_witness :
    generate_image ⟨"t", "d", false, false, true⟩ "g" "i" extUploadFail =
      .error (.http 500 ("ImgBB Upload Failed: " ++ "quota exceeded")) :=
  (C6_upload_error ⟨"t", "d", false, false, true⟩ "g" "i" extUploadFail [1]
      rfl rfl).1 "quota exceeded" rfl rfl



/-- Claim C7 counterexample: the claim asserts every request accepted by
the pipeline has non-empty title and description.  The REST endpoint's
validation only checks field presence: a request whose title and
description are the empty string passes validation and completes the whole
pipeline successfully. -/
theorem C7_empty_fields_accepted :
    emptyFieldsRequest.title = some "" ∧ emptyFieldsRequest.description = some "" ∧
    post_generate emptyFieldsRequest allHeaders extOneImage =
      .ok ⟨"data:image/jpeg;base64," ++ base64Encode [1]⟩ :=
  ⟨rfl, rfl, rfl⟩

/-- Claim C7 (amended): a request missing a required field (title,
description, or either credential header) is rejected with the framework's
validation error before any external call is made — the outcome is
independent of the external services — and the dashboard's handler accepts
only requests whose title and description are non-blank after stripping;
the REST endpoint, however, does not enforce non-emptiness (empty strings
pass, see the counterexample). -/
theorem C7_required_field_validation (raw : RawRequest) (hdrs : RequestHeaders)
    (ext : ExternalServices) :
    ((raw.title = none ∨ raw.description = none ∨ hdrs.x_gemini_api_key = none ∨
        hdrs.x_imgbb_api_key = none) →
      post_generate raw hdrs ext = .error (.validation (missing_params raw hdrs)) ∧
      ∀ ext2, post_generate raw hdrs ext = post_generate raw hdrs ext2) ∧
    (∀ t d : String, app_accepts t d = true → pyStrip t ≠ "" ∧ pyStrip d ≠ "") := by
  constructor
  · intro hmiss
    obtain ⟨t?, d?, a?, e?, u?⟩ := raw
    obtain ⟨g?, i?⟩ := hdrs
    cases t? <;> cases d? <;> cases g? <;> cases i? <;>
      simp_all [post_generate, missing_params]
  · intro t d h
    simp only [app_accepts, Bool.and_eq_true, Bool.not_eq_true', beq_eq_false_iff_ne,
      ne_eq] at h
    exact ⟨h.1, h.2⟩

/-- Claim C7 witness: a request missing its title is rejected with the
validation error naming "title", and a non-blank pair passes the dashboard
guard with non-blank stripped fields. -/
theorem C7_required_field_validation_witness :
    post_generate ⟨none, some "d", none, none, none⟩ allHeaders extOneImage =
      .error (.validation ["title"]) ∧ pyStrip "x" ≠ "" := by
  have h := C7_required_field_validation ⟨none, some "d", none, none, none⟩
    allHeaders extOneImage
  constructor
  · rw [(h.1 (Or.inl rfl)).1]; rfl
  · exact ((h.2 "x" "y" (by decide)).1)

/-- Claim C8: the reference implementation requires the upload-host
credential header on every request — a request without it is rejected even
when `upload_imgbb` is false (the `∀ raw` covers requests with
`upload_imgbb = some false`) — although the credential is only needed when
`upload_imgbb` is true: with the flag false the pipeline's outcome is
independent of the credential's value. -/
theorem C8_upload_credential_unconditional :
    (∀ (raw : RawRequest) (hdrs : RequestHeaders) (ext : ExternalServices),
        hdrs.x_imgbb_api_key = none →
        post_generate raw hdrs ext = .error (.validation (missing_params raw hdrs)) ∧
        "x-imgbb-api-key" ∈ missing_params raw hdrs) ∧
    (∀ (req : ImageRequest) (gemini_key k k2 : String) (ext : ExternalServices),
        req.upload_imgbb = false →
        generate_image req gemini_key k ext = generate_image req gemini_key k2 ext) := by
  constructor
  · intro raw hdrs ext hik
    obtain ⟨t?, d?, a?, e?, u?⟩ := raw
    obtain ⟨g?, i?⟩ := hdrs
    subst hik
    constructor
    · cases t? <;> cases d? <;> cases g? <;> simp_all [post_generate, missing_params]
    · simp [missing_params]
  · intro req gemini_key k k2 ext hflag
    unfold generate_image
    cases hri : raw_image req gemini_key ext with
    | none => rfl
    | some bytes => simp [hflag]

/-- Claim C8 witness: a request with `upload_imgbb = false` and no upload
credential header is still rejected with a validation error naming the
header, and with the flag false two runs with different upload credentials
coincide. -/
theorem C8_upload_credential_unconditional_witness :
    post_generate ⟨some "t", some "d", some false, some false, some false⟩
        ⟨some "g", none⟩ extOneImage =
      .error (.validation ["x-imgbb-api-key"]) ∧
    generate_image ⟨"t", "d", false, false, false⟩ "g" "k1" extOneImage =
      generate_image ⟨"t", "d", false, false, false⟩ "g" "k2" extOneImage := by
  have h := C8_upload_credential_unconditional
  constructor
  · rw [(h.1 ⟨some "t", some "d", some false, some false, some false⟩
      ⟨some "g", none⟩ extOneImage rfl).1]
    rfl
  · exact h.2 ⟨"t", "d", false, false, false⟩ "g" "k1" "k2" extOneImage rfl

end PromptForge
